import Mathlib

/-!
Verification of the meticulous crate: extension methods `todo`, `assured`,
`verified` on `Result` and `Option`, which either return the contained
success value or terminate execution with a diagnostic message.

The embedding is shallow: a call that panics is modelled as returning
`PanicOr.panicked msg` where `msg` is the composed diagnostic string, and a
call that returns the success value is `PanicOr.ret v`. The `Debug`
rendering of the error type `E` is modelled as an explicit function
`dbg : E → String`.
-/

/-- Rust `Result<T, E>`: either a success value or a failure detail. -/
inductive RustResult (T E : Type) where
  | ok (v : T)
  | err (e : E)
deriving DecidableEq

/-- Outcome of one of the extension operations: either the operation
returns the value `v`, or it terminates execution carrying the diagnostic
message `msg`. -/
inductive PanicOr (T : Type) where
  | ret (v : T)
  | panicked (msg : String)
deriving DecidableEq

namespace ResultExt

/-- `ResultExt::todo` on `Result<T, E>`: `self.expect("not yet implemented")`.
Rust `Result::expect(msg)` returns the `Ok` value, and on `Err(e)` panics
with the message `msg`, a `": "` separator, and the `Debug` rendering of
`e`. The `Debug` rendering is the parameter `dbg`. -/
def todo (dbg : E → String) : RustResult T E → PanicOr T
  | .ok v => .ret v
  | .err e => .panicked ("not yet implemented" ++ ": " ++ dbg e)

/-- `ResultExt::assured` on `Result<T, E>`:
`self.unwrap_or_else(|_| panic!("the success was expected to be assured, but the error was returned: {}", reason))`.
The closure ignores the error value, so the diagnostic is built from the
reason alone. -/
def assured (r : RustResult T E) (reason : String) : PanicOr T :=
  match r with
  | .ok v => .ret v
  | .err _ =>
      .panicked ("the success was expected to be assured, but the error was returned: " ++ reason)

/-- `ResultExt::verified` on `Result<T, E>`:
`self.unwrap_or_else(|_| panic!("the success was expected to be verified in the code earlier, but the error was returned: {}", reason))`.
The closure ignores the error value. -/
def verified (r : RustResult T E) (reason : String) : PanicOr T :=
  match r with
  | .ok v => .ret v
  | .err _ =>
      .panicked ("the success was expected to be verified in the code earlier, but the error was returned: " ++ reason)

end ResultExt

namespace OptionExt

/-- `OptionExt::todo` on `Option<T>`: `self.expect("not yet implemented")`.
Rust `Option::expect(msg)` returns the `Some` value, and on `None` panics
with exactly the message `msg` (nothing is appended). -/
def todo : Option T → PanicOr T
  | some v => .ret v
  | none => .panicked "not yet implemented"

/-- `OptionExt::assured` on `Option<T>`:
`self.unwrap_or_else(|| panic!("the value was assured to exist but was None: {}", reason))`. -/
def assured (o : Option T) (reason : String) : PanicOr T :=
  match o with
  | some v => .ret v
  | none => .panicked ("the value was assured to exist but was None: " ++ reason)

/-- `OptionExt::verified` on `Option<T>`:
`self.unwrap_or_else(|| panic!("it was verified that value presents but None was returned: {}", reason))`. -/
def verified (o : Option T) (reason : String) : PanicOr T :=
  match o with
  | some v => .ret v
  | none => .panicked ("it was verified that value presents but None was returned: " ++ reason)

end OptionExt

/-- The `cfg` gate on both `todo` implementations:
`#[cfg(not(all(feature = "disallow-todo-on-release", not(debug_assertions))))]`.
The `todo` method is compiled into the artifact exactly when this predicate
holds of the two build flags: the `disallow-todo-on-release` feature and
`debug_assertions` (true in debug profiles, false in release profiles).
When the predicate is false the method is absent from the trait impl, so a
build in that configuration cannot compile a call to `todo`. -/
def todoAvailable (disallowTodoOnRelease debugAssertions : Bool) : Bool :=
  !(disallowTodoOnRelease && !debugAssertions)

/-- C1: for every container holding a success value `v` — a non-empty
`Option` or an `Ok` `Result` — each of `todo()`, `assured(r)`,
`verified(r)` returns exactly `v` unmodified, for any reason text `r` and
any `Debug` rendering of the error type, and produces no panic. -/
theorem success_returns_value_unmodified (T E : Type) (v : T) (dbg : E → String)
    (r : String) :
    OptionExt.todo (some v) = PanicOr.ret v ∧
    OptionExt.assured (some v) r = PanicOr.ret v ∧
    OptionExt.verified (some v) r = PanicOr.ret v ∧
    ResultExt.todo dbg (RustResult.ok v : RustResult T E) = PanicOr.ret v ∧
    ResultExt.assured (RustResult.ok v : RustResult T E) r = PanicOr.ret v ∧
    ResultExt.verified (RustResult.ok v : RustResult T E) r = PanicOr.ret v :=
  ⟨rfl, rfl, rfl, rfl, rfl, rfl⟩

/-- C2: evaluating the code at the documented example. For
`Err("emergency failure")`, `assured("always true for 64-bit apps")`
panics with
`"the success was expected to be assured, but the error was returned: always true for 64-bit apps"` —
the error detail is discarded by the `|_|` closure and never appended,
contradicting the crate doc example, which promises the suffix
`": emergency failure"`. -/
theorem assured_discards_error_detail :
    ResultExt.assured (RustResult.err "emergency failure" : RustResult Nat String)
      "always true for 64-bit apps"
      = PanicOr.panicked
          "the success was expected to be assured, but the error was returned: always true for 64-bit apps" ∧
    ResultExt.assured (RustResult.err "emergency failure" : RustResult Nat String)
      "always true for 64-bit apps"
      ≠ PanicOr.panicked
          "the success was expected to be assured, but the error was returned: always true for 64-bit apps: emergency failure" :=
  ⟨rfl, by decide⟩

/-- C3: evaluating the code at the documented example. For a failed
conversion whose error detail renders as
`"out of range integral type conversion attempted"`,
`verified("boundaries already checked")` panics with
`"the success was expected to be verified in the code earlier, but the error was returned: boundaries already checked"` —
the error detail is discarded by the `|_|` closure and never appended,
contradicting the crate doc example, which promises the rendered error
text as a suffix. -/
theorem verified_discards_error_detail :
    ResultExt.verified
      (RustResult.err "out of range integral type conversion attempted" : RustResult Nat String)
      "boundaries already checked"
      = PanicOr.panicked
          "the success was expected to be verified in the code earlier, but the error was returned: boundaries already checked" ∧
    ResultExt.verified
      (RustResult.err "out of range integral type conversion attempted" : RustResult Nat String)
      "boundaries already checked"
      ≠ PanicOr.panicked
          "the success was expected to be verified in the code earlier, but the error was returned: boundaries already checked: out of range integral type conversion attempted" :=
  ⟨rfl, by decide⟩

/-- C4: for every `Result` holding a failure detail, `todo()` panics with
a diagnostic consisting of `"not yet implemented"` followed by the `": "`
separator and the textual (`Debug`) form of the contained failure
detail. -/
theorem result_todo_appends_error_detail (T E : Type) (dbg : E → String) (e : E) :
    ResultExt.todo dbg (RustResult.err e : RustResult T E)
      = PanicOr.panicked ("not yet implemented" ++ ": " ++ dbg e) :=
  rfl

/-- C5 counterexample: for the empty `Option`, `assured("X")` does not
panic with the `Result`-template message
`"the success was expected to be assured, but the error was returned: X"`. -/
theorem option_assured_message_not_result_template :
    OptionExt.assured (none : Option Nat) "X"
      ≠ PanicOr.panicked "the success was expected to be assured, but the error was returned: X" := by
  decide

/-- C5 amended: for every empty `Option` and every reason text, `assured`
panics with the diagnostic
`"the value was assured to exist but was None: "` followed by the
reason. -/
theorem option_assured_message (T : Type) (reason : String) :
    OptionExt.assured (none : Option T) reason
      = PanicOr.panicked ("the value was assured to exist but was None: " ++ reason) :=
  rfl

/-- C6 counterexample: for the empty `Option`, `verified("X")` does not
panic with the `Result`-template message
`"the success was expected to be verified in the code earlier, but the error was returned: X"`. -/
theorem option_verified_message_not_result_template :
    OptionExt.verified (none : Option Nat) "X"
      ≠ PanicOr.panicked
          "the success was expected to be verified in the code earlier, but the error was returned: X" := by
  decide

/-- C6 amended: for every empty `Option` and every reason text, `verified`
panics with the diagnostic
`"it was verified that value presents but None was returned: "` followed
by the reason. -/
theorem option_verified_message (T : Type) (reason : String) :
    OptionExt.verified (none : Option T) reason
      = PanicOr.panicked ("it was verified that value presents but None was returned: " ++ reason) :=
  rfl

/-- C7: evaluating the code at the failing input. For the empty `Option`,
`todo()` panics with exactly `"not yet implemented"`: Rust
`Option::expect` renders only its message argument, so the `"None"`
placeholder promised by the crate doc example
(`not yet implemented: None`) is never rendered. -/
theorem option_todo_message_omits_none :
    OptionExt.todo (none : Option Nat) = PanicOr.panicked "not yet implemented" ∧
    OptionExt.todo (none : Option Nat) ≠ PanicOr.panicked "not yet implemented: None" :=
  ⟨rfl, by decide⟩

/-- C8: the build-time gate on `todo`. When the
`disallow-todo-on-release` feature is on and the profile is non-debug
(`debug_assertions` off), `todo` is excluded from the compiled artifact;
when the feature is on under a debug profile, or the feature is off in any
profile, `todo` is present. -/
theorem todo_gate_cases :
    todoAvailable true false = false ∧
    todoAvailable true true = true ∧
    (∀ debugAssertions : Bool, todoAvailable false debugAssertions = true) := by
  refine ⟨rfl, rfl, ?_⟩
  intro d
  cases d <;> rfl

/-- C9: every operation is deterministic — applied to equal containers
with equal reason text (and the same `Debug` rendering), each of the six
operations produces the identical outcome: the same returned value on
success or the same diagnostic on failure. The operations are pure
functions of their arguments; no external state enters or is mutated. -/
theorem operations_deterministic (T E : Type) (dbg : E → String)
    (o₁ o₂ : Option T) (r₁ r₂ : RustResult T E) (s₁ s₂ : String)
    (ho : o₁ = o₂) (hr : r₁ = r₂) (hs : s₁ = s₂) :
    OptionExt.todo o₁ = OptionExt.todo o₂ ∧
    OptionExt.assured o₁ s₁ = OptionExt.assured o₂ s₂ ∧
    OptionExt.verified o₁ s₁ = OptionExt.verified o₂ s₂ ∧
    ResultExt.todo dbg r₁ = ResultExt.todo dbg r₂ ∧
    ResultExt.assured r₁ s₁ = ResultExt.assured r₂ s₂ ∧
    ResultExt.verified r₁ s₁ = ResultExt.verified r₂ s₂ := by
  subst ho; subst hr; subst hs
  exact ⟨rfl, rfl, rfl, rfl, rfl, rfl⟩

/-- C9 witness: the determinism theorem instantiated at concrete
containers and reason text. -/
theorem operations_deterministic_witness :
    OptionExt.todo (some 5) = OptionExt.todo (some 5) ∧
    OptionExt.assured (some 5) "r" = OptionExt.assured (some 5) "r" ∧
    OptionExt.verified (some 5) "r" = OptionExt.verified (some 5) "r" ∧
    ResultExt.todo (fun e : String => e) (RustResult.ok 5 : RustResult Nat String)
      = ResultExt.todo (fun e : String => e) (RustResult.ok 5 : RustResult Nat String) ∧
    ResultExt.assured (RustResult.ok 5 : RustResult Nat String) "r"
      = ResultExt.assured (RustResult.ok 5 : RustResult Nat String) "r" ∧
    ResultExt.verified (RustResult.ok 5 : RustResult Nat String) "r"
      = ResultExt.verified (RustResult.ok 5 : RustResult Nat String) "r" :=
  operations_deterministic Nat String (fun e => e) (some 5) (some 5)
    (RustResult.ok 5) (RustResult.ok 5) "r" "r" rfl rfl rfl

/-- C10: on the `Result` form, the failure diagnostics of `assured` and
`verified` do not depend on the contained failure detail — for any two
failing containers with arbitrary, possibly different error payloads (even
of different error types) and the same reason text, the two calls panic
with identical diagnostics. -/
theorem failure_diagnostic_independent_of_error (T E₁ E₂ : Type)
    (e₁ : E₁) (e₂ : E₂) (reason : String) :
    ResultExt.assured (RustResult.err e₁ : RustResult T E₁) reason
      = ResultExt.assured (RustResult.err e₂ : RustResult T E₂) reason ∧
    ResultExt.verified (RustResult.err e₁ : RustResult T E₁) reason
      = ResultExt.verified (RustResult.err e₂ : RustResult T E₂) reason :=
  ⟨rfl, rfl⟩
